import Mathlib

/-!
Verification development for the VeHealth compliance services:
a shallow embedding of the driver-document review Lambda, the document
expiry-sweep Lambda and the upload Lambda's record creation, together
with theorems settling the specified properties.

Database rows are modelled as Lean structures; the SQL statements of the
handlers become pure functions on an explicit database state.  Timestamps
and dates are `Nat` (`NOW()` / `CURRENT_DATE` are passed in as parameters);
nullable columns are `Option`; JSON body fields are `Option` with `none`
standing for an absent (or JS-falsy) field, matching the handlers' use of
`x || null` and `!x`.  Opaque storage columns (s3 key, bucket, file name,
size, mime type) are omitted: no modelled operation reads them.
-/

namespace VeHealth

/-- SQL `COALESCE(a, b)`: the first non-null argument. -/
def coalesce {α : Type} (a b : Option α) : Option α :=
  match a with
  | some x => some x
  | none => b

/-- A row of the `driver_documents` table (storage-reference columns omitted). -/
structure Document where
  id : Nat
  driver_id : String
  document_type : String
  status : String
  verified_at : Option Nat
  verified_by : Option String
  rejection_reason : Option String
  notes : Option String
  document_number : Option String
  issuing_authority : Option String
  issue_date : Option Nat
  expiry_date : Option Nat
  expiration_notified_at : Option Nat
  created_at : Nat
  updated_at : Nat
deriving Repr, DecidableEq

/-- A row of the `driver_profiles` table (columns the Lambdas touch). -/
structure Profile where
  user_id : String
  documents_complete : Bool
  documents_verified_at : Option Nat
  status : String
  license_document_id : Option Nat
  insurance_document_id : Option Nat
  registration_document_id : Option Nat
  inspection_document_id : Option Nat
  profile_photo_document_id : Option Nat
  updated_at : Nat
deriving Repr, DecidableEq

/-- The database state the handlers operate on. -/
structure DB where
  documents : List Document
  profiles : List Profile
deriving Repr, DecidableEq

/-- The caller identity extracted from JWT claims (`extractUserFromEvent`). -/
structure User where
  userId : String
  isAdmin : Bool
deriving Repr, DecidableEq

/-- The parsed JSON body of `PUT /admin/documents/{documentId}/review`. -/
structure ReviewBody where
  status : Option String
  rejectionReason : Option String
  notes : Option String
  documentNumber : Option String
  issuingAuthority : Option String
  issueDate : Option Nat
  expiryDate : Option Nat
deriving Repr, DecidableEq

/-- The `reviewData` argument of `updateDocumentStatus`. -/
structure ReviewData where
  status : String
  reviewerId : String
  rejectionReason : Option String
  notes : Option String
  documentNumber : Option String
  issuingAuthority : Option String
  issueDate : Option Nat
  expiryDate : Option Nat
deriving Repr, DecidableEq

/-- The `SET` clause of `updateDocumentStatus`'s `UPDATE driver_documents`:
status is assigned, `verified_at` is stamped only for approved/rejected,
`verified_by`, `rejection_reason` and `notes` are assigned unconditionally,
the four verification-metadata columns use `COALESCE(new, old)`, and
`updated_at` is bumped. -/
def applyReviewUpdate (now : Nat) (rd : ReviewData) (d : Document) : Document :=
  { d with
    status := rd.status
    verified_at :=
      if rd.status = "approved" ∨ rd.status = "rejected" then some now else d.verified_at
    verified_by := some rd.reviewerId
    rejection_reason := rd.rejectionReason
    notes := rd.notes
    document_number := coalesce rd.documentNumber d.document_number
    issuing_authority := coalesce rd.issuingAuthority d.issuing_authority
    issue_date := coalesce rd.issueDate d.issue_date
    expiry_date := coalesce rd.expiryDate d.expiry_date
    updated_at := now }

/-- `updateDocumentStatus`: runs the `UPDATE ... WHERE id = $9 RETURNING ...`;
throws `Document not found` when no row matches (the returned row is modelled
as the whole updated document, a superset of the `RETURNING` list). -/
def updateDocumentStatus (db : DB) (now : Nat) (documentId : Nat) (rd : ReviewData) :
    Except String (Document × DB) :=
  match (db.documents.filter (fun d => decide (d.id = documentId))).map
      (applyReviewUpdate now rd) with
  | [] => .error "Document not found"
  | row :: _ =>
    .ok (row,
      { db with
          documents := db.documents.map fun d =>
            if d.id = documentId then applyReviewUpdate now rd d else d })

/-- The `columnMap` of `updateDriverProfile`: document types that have a
reference column on `driver_profiles`. -/
def profileColumnTypes : List String :=
  ["license", "insurance", "registration", "inspection", "profile_photo"]

/-- Assignment of the mapped reference column plus `updated_at` on one profile
row (the `SET ${column} = $1, updated_at = NOW()` clause). -/
def setProfileDocRef (documentType : String) (documentId : Nat) (now : Nat)
    (p : Profile) : Profile :=
  if documentType = "license" then
    { p with license_document_id := some documentId, updated_at := now }
  else if documentType = "insurance" then
    { p with insurance_document_id := some documentId, updated_at := now }
  else if documentType = "registration" then
    { p with registration_document_id := some documentId, updated_at := now }
  else if documentType = "inspection" then
    { p with inspection_document_id := some documentId, updated_at := now }
  else if documentType = "profile_photo" then
    { p with profile_photo_document_id := some documentId, updated_at := now }
  else p

/-- `updateDriverProfile`: writes the document-reference column for the
driver's profile rows; a document type outside `columnMap` is a no-op. -/
def updateDriverProfile (db : DB) (now : Nat) (driverId : String)
    (documentType : String) (documentId : Nat) : DB :=
  if decide (documentType ∈ profileColumnTypes) then
    { db with profiles := db.profiles.map (fun p =>
        if p.user_id = driverId then setProfileDocRef documentType documentId now p else p) }
  else db

/-- The fixed required-document set used by `checkAllDocumentsApproved`
and by the sweeper's per-driver check. -/
def requiredDocs : List String := ["license", "insurance", "registration", "profile_photo"]

/-- The `SELECT document_type ... WHERE driver_id = $1 AND document_type =
ANY($2) AND status = 'approved'` query shared by the review-path recompute
and the sweeper's per-driver check. -/
def approvedRequiredTypes (db : DB) (driverId : String) : List String :=
  (db.documents.filter (fun d =>
      decide (d.driver_id = driverId) && decide (d.document_type ∈ requiredDocs) &&
        decide (d.status = "approved"))).map (fun d => d.document_type)

/-- The return value of `checkAllDocumentsApproved` (the `profileStatus`
payload is not modelled; `missingDocuments` is `[]` in the complete case,
where the source omits the field). -/
structure CheckResult where
  allDocumentsApproved : Bool
  profileUpdated : Bool
  missingDocuments : List String
deriving Repr, DecidableEq

/-- The `SET` clause of the complete-case `UPDATE driver_profiles` in
`checkAllDocumentsApproved`: `documents_complete = TRUE`,
`documents_verified_at = NOW()`, `pending_documents` flips to `active`,
`updated_at` bumped. -/
def markProfileComplete (now : Nat) (p : Profile) : Profile :=
  { p with
    documents_complete := true
    documents_verified_at := some now
    status := if p.status = "pending_documents" then "active" else p.status
    updated_at := now }

/-- `checkAllDocumentsApproved`: the review-path aggregate recomputation.
Writes the profile only when every required type is approved; otherwise it
returns the missing list and leaves the database untouched. -/
def checkAllDocumentsApproved (db : DB) (now : Nat) (driverId : String) :
    CheckResult × DB :=
  let approvedDocs := approvedRequiredTypes db driverId
  let allApproved := requiredDocs.all (fun doc => decide (doc ∈ approvedDocs))
  if allApproved then
    ({ allDocumentsApproved := true, profileUpdated := true, missingDocuments := [] },
     { db with profiles := db.profiles.map (fun p =>
         if p.user_id = driverId then markProfileComplete now p else p) })
  else
    ({ allDocumentsApproved := false, profileUpdated := false,
       missingDocuments := requiredDocs.filter (fun doc => !decide (doc ∈ approvedDocs)) },
     db)

/-- The statuses `handleReviewDocument` accepts (`validStatuses`). -/
def validStatuses : List String := ["approved", "rejected", "pending", "processing"]

/-- Fault injection for the review handler's transactional section: each flag
makes the corresponding awaited database step throw.  The source wraps the
section in `BEGIN`/`COMMIT` with `ROLLBACK` in the catch, so a thrown step
must leave the pre-transaction state. -/
structure ReviewFaults where
  failUpdateDoc : Bool
  failUpdateProfile : Bool
  failCheck : Bool
  failCommit : Bool
deriving Repr, DecidableEq

/-- No injected faults: every database step succeeds. -/
def noReviewFaults : ReviewFaults :=
  { failUpdateDoc := false, failUpdateProfile := false, failCheck := false,
    failCommit := false }

/-- The observable outcome of one review invocation: HTTP status code, the
database state after the call, the returned document and the returned
verification summary (`none` when the response omits them). -/
structure ReviewResult where
  statusCode : Nat
  db : DB
  document : Option Document
  verificationStatus : Option CheckResult
deriving Repr, DecidableEq

/-- The `reviewData` object `handleReviewDocument` passes to
`updateDocumentStatus`, assembled from the caller and the request body. -/
def mkReviewData (user : User) (body : ReviewBody) (status : String) : ReviewData :=
  { status := status, reviewerId := user.userId,
    rejectionReason := body.rejectionReason, notes := body.notes,
    documentNumber := body.documentNumber, issuingAuthority := body.issuingAuthority,
    issueDate := body.issueDate, expiryDate := body.expiryDate }

/-- `handleReviewDocument` (with the outer Lambda handler's catch folded in:
a thrown error becomes a 500 response).  Validation and authorization run
before the transaction; between `BEGIN` and `COMMIT` any failure — injected
or `Document not found` — triggers `ROLLBACK`, restoring the entry state. -/
def handleReviewDocument (db : DB) (now : Nat) (user : User)
    (documentId : Option Nat) (body : ReviewBody) (f : ReviewFaults) : ReviewResult :=
  if !user.isAdmin then
    { statusCode := 403, db := db, document := none, verificationStatus := none }
  else
    match documentId with
    | none => { statusCode := 400, db := db, document := none, verificationStatus := none }
    | some docId =>
      match body.status with
      | none => { statusCode := 400, db := db, document := none, verificationStatus := none }
      | some status =>
        if !decide (status ∈ validStatuses) then
          { statusCode := 400, db := db, document := none, verificationStatus := none }
        else if decide (status = "rejected") && decide (body.rejectionReason = none) then
          { statusCode := 400, db := db, document := none, verificationStatus := none }
        else if f.failUpdateDoc then
          { statusCode := 500, db := db, document := none, verificationStatus := none }
        else
          match updateDocumentStatus db now docId (mkReviewData user body status) with
          | .error _ =>
            { statusCode := 500, db := db, document := none, verificationStatus := none }
          | .ok (document, db1) =>
            if status = "approved" then
              if f.failUpdateProfile then
                { statusCode := 500, db := db, document := none, verificationStatus := none }
              else
                let db2 := updateDriverProfile db1 now document.driver_id
                  document.document_type docId
                if f.failCheck then
                  { statusCode := 500, db := db, document := none,
                    verificationStatus := none }
                else
                  let checked := checkAllDocumentsApproved db2 now document.driver_id
                  if f.failCommit then
                    { statusCode := 500, db := db, document := none,
                      verificationStatus := none }
                  else
                    { statusCode := 200, db := checked.2, document := some document,
                      verificationStatus := some checked.1 }
            else
              if f.failCommit then
                { statusCode := 500, db := db, document := none,
                  verificationStatus := none }
              else
                { statusCode := 200, db := db1, document := some document,
                  verificationStatus := none }

/-- The fully committed state of a successful review: the document update
followed, on transition to `approved`, by the profile-reference write and
the aggregate recomputation — the whole transactional unit. -/
def reviewSuccessState (db : DB) (now : Nat) (user : User) (docId : Nat)
    (status : String) (body : ReviewBody) : Option DB :=
  match updateDocumentStatus db now docId (mkReviewData user body status) with
  | .error _ => none
  | .ok (document, db1) =>
    if status = "approved" then
      some (checkAllDocumentsApproved
        (updateDriverProfile db1 now document.driver_id document.document_type docId)
        now document.driver_id).2
    else
      some db1

/-- The `WHERE` clause of `markExpiredDocuments`: `status = 'approved' AND
expiry_date IS NOT NULL AND expiry_date < CURRENT_DATE`. -/
def isExpiredCandidate (today : Nat) (d : Document) : Bool :=
  decide (d.status = "approved") &&
    (match d.expiry_date with
     | some e => decide (e < today)
     | none => false)

/-- The `SET status = 'expired', updated_at = NOW()` clause. -/
def expireDoc (now : Nat) (d : Document) : Document :=
  { d with status := "expired", updated_at := now }

/-- `markExpiredDocuments`: the demotion pass's single `UPDATE ... RETURNING`;
returns the transitioned rows and the new state. -/
def markExpiredDocuments (db : DB) (today now : Nat) : List Document × DB :=
  ((db.documents.filter (isExpiredCandidate today)).map (expireDoc now),
   { db with documents := db.documents.map (fun d =>
       if isExpiredCandidate today d then expireDoc now d else d) })

/-- JS `[...new Set(xs)]`: first-occurrence-order deduplication. -/
def dedupFirst (l : List String) : List String :=
  l.foldl (fun acc x => if x ∈ acc then acc else acc ++ [x]) []

/-- The `SET` clause of the sweeper's demotion `UPDATE driver_profiles`:
`documents_complete = FALSE`, `active` flips back to `pending_documents`,
`updated_at` bumped. -/
def demoteProfile (now : Nat) (p : Profile) : Profile :=
  { p with
    documents_complete := false
    status := if p.status = "active" then "pending_documents" else p.status
    updated_at := now }

/-- One iteration of `updateDriverProfilesForExpiredDocs`'s per-driver loop:
re-check the required set; when no longer fully approved, demote the
driver's profile rows and return the `RETURNING` row pushed onto `results`
(`rows[0]`, which may be absent).  `none` means nothing was pushed. -/
def sweeperCheckDriver (db : DB) (now : Nat) (driverId : String) :
    Option (Option Profile) × DB :=
  let approvedDocs := approvedRequiredTypes db driverId
  if requiredDocs.all (fun doc => decide (doc ∈ approvedDocs)) then
    (none, db)
  else
    (some ((db.profiles.filter (fun p => decide (p.user_id = driverId))).map
        (demoteProfile now)).head?,
     { db with profiles := db.profiles.map (fun p =>
         if p.user_id = driverId then demoteProfile now p else p) })

/-- The per-driver loop of `updateDriverProfilesForExpiredDocs`, with fault
injection: a driver in `failIds` makes that iteration's query throw, which
aborts the remaining iterations (`false` flag) while keeping every
already-committed statement — the sweep runs with no transaction. -/
def sweepDriversLoop (now : Nat) (failIds : List String) :
    List String → DB → List (Option Profile) → Bool × List (Option Profile) × DB
  | [], db, acc => (true, acc, db)
  | driverId :: rest, db, acc =>
    if decide (driverId ∈ failIds) then (false, acc, db)
    else
      match sweeperCheckDriver db now driverId with
      | (none, db1) => sweepDriversLoop now failIds rest db1 acc
      | (some row, db1) => sweepDriversLoop now failIds rest db1 (acc ++ [row])

/-- The `WHERE` clause of `findExpiringDocuments` with the default 30-day
lookahead: `status = 'approved' AND expiry_date IS NOT NULL AND expiry_date
BETWEEN CURRENT_DATE AND CURRENT_DATE + 30 days AND expiration_notified_at
IS NULL`. -/
def isExpiringCandidate (today : Nat) (d : Document) : Bool :=
  decide (d.status = "approved") &&
    (match d.expiry_date with
     | some e => decide (today ≤ e) && decide (e ≤ today + 30)
     | none => false) &&
    decide (d.expiration_notified_at = none)

/-- `findExpiringDocuments` (the `ORDER BY expiry_date` is not modelled: no
settled property depends on row order). -/
def findExpiringDocuments (db : DB) (today : Nat) : List Document :=
  db.documents.filter (isExpiringCandidate today)

/-- `markNotificationSent`: stamps `expiration_notified_at` and `updated_at`
on the listed documents; an empty id list short-circuits. -/
def markNotificationSent (db : DB) (now : Nat) (documentIds : List Nat) : DB :=
  if documentIds.length = 0 then db
  else
    { db with documents := db.documents.map (fun d =>
        if decide (d.id ∈ documentIds) then
          { d with expiration_notified_at := some now, updated_at := now }
        else d) }

/-- Fault injection for the expiry-sweep handler: one flag per awaited
database step, plus the driver ids whose per-driver queries fail.  The
handler has a single outer try/catch and opens no transaction, so each
statement commits independently and a thrown step ends the whole run. -/
structure SweepFaults where
  failMarkExpired : Bool
  failDrivers : List String
  failFindExpiring : Bool
  failMarkNotified : Bool
deriving Repr, DecidableEq

/-- No injected faults for the sweep. -/
def noSweepFaults : SweepFaults :=
  { failMarkExpired := false, failDrivers := [], failFindExpiring := false,
    failMarkNotified := false }

/-- The sweep handler's outcome: HTTP status code, the `results` counters
and errors, and the database state after the run. -/
structure SweepResult where
  statusCode : Nat
  expiringDocuments : Nat
  expiredDocuments : Nat
  notificationsSent : Nat
  profilesUpdated : Nat
  errors : List String
  db : DB
deriving Repr, DecidableEq

/-- The error message pushed by the sweep handler's catch (the source pushes
`error.message`; a fixed text stands in for it). -/
def sweepErrorMessage : String := "Error in document expiry check"

/-- The expiry-sweep Lambda handler: mark expired documents, update profiles
for the affected drivers, find soon-expiring documents, notify and stamp.
The `results` counters are filled in source order, so a failure returns the
counters assigned before the throw; the single catch pushes one error and
returns 500 with the state committed so far. -/
def expiryHandler (db : DB) (today now : Nat) (f : SweepFaults) : SweepResult :=
  if f.failMarkExpired then
    { statusCode := 500, expiringDocuments := 0, expiredDocuments := 0,
      notificationsSent := 0, profilesUpdated := 0,
      errors := [sweepErrorMessage], db := db }
  else
    let step1 := markExpiredDocuments db today now
    let expiredDocs := step1.1
    let db1 := step1.2
    let step2 :=
      if expiredDocs.length > 0 then
        sweepDriversLoop now f.failDrivers
          (dedupFirst (expiredDocs.map (fun d => d.driver_id))) db1 []
      else (true, [], db1)
    match step2 with
    | (false, _, dbPartial) =>
      { statusCode := 500, expiringDocuments := 0,
        expiredDocuments := expiredDocs.length,
        notificationsSent := 0, profilesUpdated := 0,
        errors := [sweepErrorMessage], db := dbPartial }
    | (true, updatedProfiles, db2) =>
      if f.failFindExpiring then
        { statusCode := 500, expiringDocuments := 0,
          expiredDocuments := expiredDocs.length,
          notificationsSent := 0, profilesUpdated := updatedProfiles.length,
          errors := [sweepErrorMessage], db := db2 }
      else
        let expiringDocs := findExpiringDocuments db2 today
        if expiringDocs.length > 0 then
          if f.failMarkNotified then
            { statusCode := 500, expiringDocuments := expiringDocs.length,
              expiredDocuments := expiredDocs.length,
              notificationsSent := expiringDocs.length,
              profilesUpdated := updatedProfiles.length,
              errors := [sweepErrorMessage], db := db2 }
          else
            { statusCode := 200, expiringDocuments := expiringDocs.length,
              expiredDocuments := expiredDocs.length,
              notificationsSent := expiringDocs.length,
              profilesUpdated := updatedProfiles.length,
              errors := [],
              db := markNotificationSent db2 now (expiringDocs.map (fun d => d.id)) }
        else
          { statusCode := 200, expiringDocuments := 0,
            expiredDocuments := expiredDocs.length,
            notificationsSent := 0, profilesUpdated := updatedProfiles.length,
            errors := [], db := db2 }

/-- `createDocumentRecord` of the upload Lambda: `INSERT INTO driver_documents`
with `status = 'pending'`; the columns the insert does not list default to
NULL (storage-reference columns are again omitted). -/
def createDocumentRecord (db : DB) (now : Nat) (newId : Nat)
    (driverId documentType : String) : DB :=
  { db with documents := db.documents ++
      [{ id := newId, driver_id := driverId, document_type := documentType,
         status := "pending",
         verified_at := none, verified_by := none, rejection_reason := none,
         notes := none, document_number := none, issuing_authority := none,
         issue_date := none, expiry_date := none, expiration_notified_at := none,
         created_at := now, updated_at := now }] }

/-- The specified invariant: `rejection_reason` is non-null iff the status is
`rejected`, for every stored document. -/
def RejInv (db : DB) : Prop :=
  ∀ d ∈ db.documents, (d.rejection_reason ≠ none ↔ d.status = "rejected")

instance (db : DB) : Decidable (RejInv db) := by
  unfold RejInv; infer_instance

/-! Concrete fixtures used by the closed theorems. -/

/-- A blank document row (every nullable column NULL). -/
def doc0 : Document :=
  { id := 1, driver_id := "drv1", document_type := "license", status := "pending",
    verified_at := none, verified_by := none, rejection_reason := none, notes := none,
    document_number := none, issuing_authority := none, issue_date := none,
    expiry_date := none, expiration_notified_at := none, created_at := 0, updated_at := 0 }

/-- A blank driver profile row. -/
def prof0 : Profile :=
  { user_id := "drv1", documents_complete := false, documents_verified_at := none,
    status := "pending_documents", license_document_id := none,
    insurance_document_id := none, registration_document_id := none,
    inspection_document_id := none, profile_photo_document_id := none, updated_at := 0 }

/-- An empty review request body. -/
def emptyBody : ReviewBody :=
  { status := none, rejectionReason := none, notes := none, documentNumber := none,
    issuingAuthority := none, issueDate := none, expiryDate := none }

/-- An administrator caller. -/
def adminUser : User := { userId := "admin1", isAdmin := true }

/-- A non-administrator caller. -/
def plainUser : User := { userId := "drv1", isAdmin := false }

/-! Structural helper lemmas shared by the claim theorems. -/

lemma updateDocumentStatus_ok {db : DB} {now documentId : Nat} {rd : ReviewData}
    {doc : Document} {db1 : DB}
    (h : updateDocumentStatus db now documentId rd = .ok (doc, db1)) :
    db1.documents = db.documents.map
      (fun d => if d.id = documentId then applyReviewUpdate now rd d else d) ∧
    db1.profiles = db.profiles := by
  unfold updateDocumentStatus at h
  split at h
  · exact absurd h (by simp)
  · rw [Except.ok.injEq, Prod.mk.injEq] at h
    rw [← h.2]
    exact ⟨rfl, rfl⟩

lemma updateDriverProfile_documents (db : DB) (now : Nat) (driverId documentType : String)
    (documentId : Nat) :
    (updateDriverProfile db now driverId documentType documentId).documents = db.documents := by
  unfold updateDriverProfile
  split <;> rfl

lemma checkAllDocumentsApproved_documents (db : DB) (now : Nat) (driverId : String) :
    (checkAllDocumentsApproved db now driverId).2.documents = db.documents := by
  unfold checkAllDocumentsApproved
  dsimp only
  split <;> rfl

lemma sweeperCheckDriver_documents (db : DB) (now : Nat) (driverId : String) :
    (sweeperCheckDriver db now driverId).2.documents = db.documents := by
  unfold sweeperCheckDriver
  dsimp only
  split <;> rfl

lemma sweepDriversLoop_documents (now : Nat) (failIds : List String) :
    ∀ (l : List String) (db : DB) (acc : List (Option Profile)),
      (sweepDriversLoop now failIds l db acc).2.2.documents = db.documents := by
  intro l
  induction l with
  | nil => intro db acc; rfl
  | cons driverId rest ih =>
    intro db acc
    unfold sweepDriversLoop
    split
    · rfl
    · split
      case _ db1 heq =>
        have hdocs := sweeperCheckDriver_documents db now driverId
        rw [heq] at hdocs
        rw [ih db1 acc]
        exact hdocs
      case _ row db1 heq =>
        have hdocs := sweeperCheckDriver_documents db now driverId
        rw [heq] at hdocs
        rw [ih db1 (acc ++ [row])]
        exact hdocs

/-- A pointwise-false condition makes the conditional map the identity. -/
lemma map_if_id {α : Type} (p : α → Bool) (g : α → α) (l : List α)
    (h : ∀ a ∈ l, p a = false) :
    (l.map fun a => if p a then g a else a) = l := by
  induction l with
  | nil => rfl
  | cons x xs ih =>
    simp only [List.map_cons, h x (List.mem_cons_self x xs)]
    rw [ih (fun a ha => h a (List.mem_cons_of_mem x ha))]
    simp

lemma dedupFirst_go_nodup (l : List String) :
    ∀ acc : List String, acc.Nodup →
      (l.foldl (fun acc x => if x ∈ acc then acc else acc ++ [x]) acc).Nodup := by
  induction l with
  | nil => intro acc h; exact h
  | cons x xs ih =>
    intro acc h
    simp only [List.foldl_cons]
    by_cases hx : x ∈ acc
    · rw [if_pos hx]; exact ih acc h
    · rw [if_neg hx]
      refine ih _ ?_
      simp [List.nodup_append, h, hx]

lemma dedupFirst_go_mem (l : List String) :
    ∀ (acc : List String) (a : String),
      a ∈ l.foldl (fun acc x => if x ∈ acc then acc else acc ++ [x]) acc ↔
        a ∈ acc ∨ a ∈ l := by
  induction l with
  | nil => intro acc a; simp
  | cons x xs ih =>
    intro acc a
    simp only [List.foldl_cons]
    by_cases hx : x ∈ acc
    · rw [if_pos hx, ih]
      constructor
      · rintro (h | h)
        · exact Or.inl h
        · exact Or.inr (List.mem_cons_of_mem x h)
      · rintro (h | h)
        · exact Or.inl h
        · rcases List.mem_cons.mp h with rfl | h2
          · exact Or.inl hx
          · exact Or.inr h2
    · rw [if_neg hx, ih]
      simp only [List.mem_append, List.mem_singleton, List.mem_cons]
      tauto

/-! Preservation lemmas for the rejection-reason invariant. -/

lemma rejInv_of_documents_eq {db1 db2 : DB} (h : db2.documents = db1.documents)
    (hdb : RejInv db1) : RejInv db2 := by
  intro d hd
  rw [h] at hd
  exact hdb d hd

lemma rejInv_review_map {db : DB} {now docId : Nat} {rd : ReviewData}
    (hdb : RejInv db) (hrd : rd.rejectionReason ≠ none ↔ rd.status = "rejected") :
    RejInv { db with
      documents := db.documents.map fun d =>
        if d.id = docId then applyReviewUpdate now rd d else d } := by
  intro d hd
  simp only [List.mem_map] at hd
  obtain ⟨a, ha, rfl⟩ := hd
  by_cases hid : a.id = docId
  · rw [if_pos hid]
    exact hrd
  · rw [if_neg hid]
    exact hdb a ha

lemma isExpiredCandidate_status {today : Nat} {d : Document}
    (h : isExpiredCandidate today d = true) : d.status = "approved" := by
  unfold isExpiredCandidate at h
  simp only [Bool.and_eq_true, decide_eq_true_eq] at h
  exact h.1

lemma rejInv_markExpiredDocuments {db : DB} (today now : Nat) (hdb : RejInv db) :
    RejInv (markExpiredDocuments db today now).2 := by
  intro d hd
  dsimp only [markExpiredDocuments] at hd
  simp only [List.mem_map] at hd
  obtain ⟨a, ha, rfl⟩ := hd
  by_cases hc : isExpiredCandidate today a = true
  · rw [if_pos hc]
    have hst := isExpiredCandidate_status hc
    have hinv := hdb a ha
    constructor
    · intro hr
      have h2 := hinv.mp hr
      rw [hst] at h2
      exact absurd h2 (by decide)
    · intro hr
      exact absurd hr (by simp [expireDoc])
  · rw [if_neg hc]
    exact hdb a ha

lemma rejInv_markNotificationSent {db : DB} (now : Nat) (ids : List Nat)
    (hdb : RejInv db) : RejInv (markNotificationSent db now ids) := by
  unfold markNotificationSent
  split
  · exact hdb
  · intro d hd
    simp only [List.mem_map] at hd
    obtain ⟨a, ha, rfl⟩ := hd
    by_cases hid : decide (a.id ∈ ids) = true
    · rw [if_pos hid]
      exact hdb a ha
    · rw [if_neg hid]
      exact hdb a ha

lemma rejInv_createDocumentRecord {db : DB} (now newId : Nat)
    (driverId documentType : String) (hdb : RejInv db) :
    RejInv (createDocumentRecord db now newId driverId documentType) := by
  intro d hd
  dsimp only [createDocumentRecord] at hd
  rw [List.mem_append] at hd
  rcases hd with hd | hd
  · exact hdb d hd
  · rw [List.mem_singleton] at hd
    subst hd
    simp

/-- Case analysis on the sweep handler's final database: either the run
failed before the first statement (state untouched), or the state is the
one after the demotion `UPDATE` with possible profile demotions (documents
untouched past step 1), possibly followed by the notification stamp. -/
lemma expiryHandler_db_spec (db : DB) (today now : Nat) (f : SweepFaults) :
    (f.failMarkExpired = true ∧ (expiryHandler db today now f).db = db) ∨
    (f.failMarkExpired = false ∧ ∃ dbMid : DB,
      dbMid.documents = (markExpiredDocuments db today now).2.documents ∧
      ((expiryHandler db today now f).db = dbMid ∨
       (expiryHandler db today now f).db =
         markNotificationSent dbMid now
           ((findExpiringDocuments dbMid today).map fun d => d.id))) := by
  unfold expiryHandler
  dsimp only
  split
  case _ hfme => exact Or.inl ⟨hfme, rfl⟩
  case _ hfme =>
    refine Or.inr ⟨by simp_all, ?_⟩
    split
    case _ ok acc dbPartial heq =>
      refine ⟨dbPartial, ?_, Or.inl rfl⟩
      split at heq
      · have := sweepDriversLoop_documents now f.failDrivers
          (dedupFirst ((markExpiredDocuments db today now).1.map fun d => d.driver_id))
          (markExpiredDocuments db today now).2 []
        rw [heq] at this
        exact this
      · simp at heq
    case _ updatedProfiles db2 heq =>
      have hdocs2 : db2.documents = (markExpiredDocuments db today now).2.documents := by
        split at heq
        · have := sweepDriversLoop_documents now f.failDrivers
            (dedupFirst ((markExpiredDocuments db today now).1.map fun d => d.driver_id))
            (markExpiredDocuments db today now).2 []
          rw [heq] at this
          exact this
        · rw [Prod.mk.injEq, Prod.mk.injEq] at heq
          rw [← heq.2.2]
      refine ⟨db2, hdocs2, ?_⟩
      split
      · exact Or.inl rfl
      · split
        · split
          · exact Or.inl rfl
          · exact Or.inr rfl
        · exact Or.inl rfl

/-- Case analysis on the review handler: every non-200 response leaves the
database untouched (validation, authorization, `Document not found`, and any
injected mid-transaction failure all roll back), and a 200 response commits
exactly the document update followed, for `approved`, by the profile write
and the aggregate recomputation. -/
lemma handleReviewDocument_spec (db : DB) (now : Nat) (user : User)
    (documentId : Option Nat) (body : ReviewBody) (f : ReviewFaults) :
    ((handleReviewDocument db now user documentId body f).statusCode ≠ 200 ∧
     (handleReviewDocument db now user documentId body f).db = db) ∨
    ((handleReviewDocument db now user documentId body f).statusCode = 200 ∧
     ∃ docId status document db1,
       documentId = some docId ∧ body.status = some status ∧
       (decide (status = "rejected") && decide (body.rejectionReason = none)) = false ∧
       updateDocumentStatus db now docId (mkReviewData user body status) =
         .ok (document, db1) ∧
       (handleReviewDocument db now user documentId body f).document = some document ∧
       ((status = "approved" ∧
          (handleReviewDocument db now user documentId body f).verificationStatus =
            some (checkAllDocumentsApproved
              (updateDriverProfile db1 now document.driver_id document.document_type docId)
              now document.driver_id).1 ∧
          (handleReviewDocument db now user documentId body f).db =
            (checkAllDocumentsApproved
              (updateDriverProfile db1 now document.driver_id document.document_type docId)
              now document.driver_id).2) ∨
        (¬status = "approved" ∧
          (handleReviewDocument db now user documentId body f).db = db1))) := by
  unfold handleReviewDocument
  dsimp only
  split
  · exact Or.inl ⟨by simp, rfl⟩
  split
  · exact Or.inl ⟨by simp, rfl⟩
  next docId =>
  split
  · exact Or.inl ⟨by simp, rfl⟩
  next status hstat =>
  split
  · exact Or.inl ⟨by simp, rfl⟩
  split
  · exact Or.inl ⟨by simp, rfl⟩
  next hguard =>
  split
  · exact Or.inl ⟨by simp, rfl⟩
  split
  · exact Or.inl ⟨by simp, rfl⟩
  next document db1 heq =>
  split
  next happr =>
    split
    · exact Or.inl ⟨by simp, rfl⟩
    split
    · exact Or.inl ⟨by simp, rfl⟩
    split
    · exact Or.inl ⟨by simp, rfl⟩
    refine Or.inr ⟨rfl, docId, status, document, db1, rfl, hstat, ?_, heq, rfl,
      Or.inl ⟨happr, rfl, rfl⟩⟩
    simpa using hguard
  next happr =>
    split
    · exact Or.inl ⟨by simp, rfl⟩
    refine Or.inr ⟨rfl, docId, status, document, db1, rfl, hstat, ?_, heq, rfl,
      Or.inr ⟨happr, rfl⟩⟩
    simpa using hguard

lemma rejInv_handleReviewDocument {db : DB} {now : Nat} {user : User}
    {documentId : Option Nat} {body : ReviewBody} {f : ReviewFaults}
    (hdb : RejInv db)
    (hyp : body.status = some "rejected" ∨ body.rejectionReason = none) :
    RejInv (handleReviewDocument db now user documentId body f).db := by
  rcases handleReviewDocument_spec db now user documentId body f with
    ⟨_, hres⟩ | ⟨_, docId, status, document, db1, _, hstat, hguard, hupd, _, hrest⟩
  · rw [hres]; exact hdb
  · have hrd : (mkReviewData user body status).rejectionReason ≠ none ↔
        (mkReviewData user body status).status = "rejected" := by
      dsimp only [mkReviewData]
      by_cases hs : status = "rejected"
      · simp only [hs, decide_True, Bool.true_and, decide_eq_false_iff_not] at hguard
        exact ⟨fun _ => hs, fun _ => hguard⟩
      · have hnone : body.rejectionReason = none := by
          rcases hyp with hyp | hyp
          · rw [hstat] at hyp
            rw [Option.some.injEq] at hyp
            exact absurd hyp hs
          · exact hyp
        simp [hnone, hs]
    have hinv1 : RejInv db1 := by
      have hmap := (updateDocumentStatus_ok hupd).1
      exact rejInv_of_documents_eq hmap (rejInv_review_map hdb hrd)
    rcases hrest with ⟨_, _, hres⟩ | ⟨_, hres⟩
    · rw [hres]
      refine rejInv_of_documents_eq ?_ hinv1
      rw [checkAllDocumentsApproved_documents, updateDriverProfile_documents]
    · rw [hres]
      exact hinv1

lemma rejInv_expiryHandler {db : DB} (today now : Nat) (f : SweepFaults)
    (hdb : RejInv db) : RejInv (expiryHandler db today now f).db := by
  have h1 : RejInv (markExpiredDocuments db today now).2 :=
    rejInv_markExpiredDocuments today now hdb
  rcases expiryHandler_db_spec db today now f with ⟨_, hres⟩ | ⟨_, dbMid, hmid, hres | hres⟩
  · rw [hres]; exact hdb
  · rw [hres]; exact rejInv_of_documents_eq hmid h1
  · rw [hres]
    exact rejInv_markNotificationSent now _ (rejInv_of_documents_eq hmid h1)

lemma approvedRequiredTypes_eq_of_documents {db1 db2 : DB}
    (h : db1.documents = db2.documents) (driverId : String) :
    approvedRequiredTypes db1 driverId = approvedRequiredTypes db2 driverId := by
  unfold approvedRequiredTypes
  rw [h]

/-- Re-marking a profile complete at a later time collapses to a single
marking at the later time. -/
lemma markProfileComplete_comp (now1 now2 : Nat) (p : Profile) :
    markProfileComplete now2 (markProfileComplete now1 p) = markProfileComplete now2 p := by
  unfold markProfileComplete
  by_cases h : p.status = "pending_documents"
  · simp [h]
  · simp [h]

lemma markExpiredDocuments_getElem (db : DB) (today now : Nat) (i : Nat) :
    (markExpiredDocuments db today now).2.documents[i]? =
      (db.documents[i]?).map fun d =>
        if isExpiredCandidate today d then expireDoc now d else d := by
  dsimp only [markExpiredDocuments]
  exact List.getElem?_map _ db.documents i

lemma markExpiredDocuments_no_candidates (db : DB) (today now : Nat) :
    ∀ d ∈ (markExpiredDocuments db today now).2.documents,
      isExpiredCandidate today d = false := by
  intro d hd
  dsimp only [markExpiredDocuments] at hd
  simp only [List.mem_map] at hd
  obtain ⟨a, ha, rfl⟩ := hd
  by_cases hc : isExpiredCandidate today a = true
  · simp only [hc, if_pos]
    simp [isExpiredCandidate, expireDoc]
  · simp only [Bool.not_eq_true] at hc
    simp [hc]

lemma markNotificationSent_status (db : DB) (now : Nat) (ids : List Nat) (i : Nat) :
    ((markNotificationSent db now ids).documents[i]?).map (fun d => d.status) =
      (db.documents[i]?).map fun d => d.status := by
  unfold markNotificationSent
  split
  · rfl
  · rw [List.getElem?_map _ db.documents i]
    cases db.documents[i]? with
    | none => rfl
    | some d =>
      dsimp only [Option.map]
      split <;> rfl

lemma updateDocumentStatus_ok_doc {db : DB} {now documentId : Nat} {rd : ReviewData}
    {doc : Document} {db1 : DB}
    (h : updateDocumentStatus db now documentId rd = .ok (doc, db1)) :
    doc.status = rd.status ∧ doc.notes = rd.notes ∧
    doc.rejection_reason = rd.rejectionReason ∧ doc.verified_by = some rd.reviewerId := by
  unfold updateDocumentStatus at h
  split at h
  · exact absurd h (by simp)
  next row rest heq =>
    rw [Except.ok.injEq, Prod.mk.injEq] at h
    obtain ⟨a, l1, _, hfa, _⟩ := List.map_eq_cons_iff.mp heq
    rw [← h.1, ← hfa]
    exact ⟨rfl, rfl, rfl, rfl⟩

/-! C1 — the rejection-reason/status equivalence. -/

/-- C1 scenario: one approved document whose `rejection_reason` is null. -/
def dbC1 : DB := { documents := [{ doc0 with status := "approved" }], profiles := [] }

/-- C1 scenario: a review body with `newStatus = 'pending'` and a supplied
`rejectionReason`. -/
def bodyC1 : ReviewBody :=
  { emptyBody with status := some "pending", rejectionReason := some "needs more info" }

/-- C1 scenario for the witness: a well-formed rejecting review body. -/
def bodyC1r : ReviewBody :=
  { emptyBody with status := some "rejected", rejectionReason := some "blurry scan" }

/-- C1: counterexample.  Starting from a store satisfying the equivalence, a
review call with `newStatus = 'pending'` and a supplied `rejectionReason`
returns 200 and leaves a stored record whose `rejection_reason` is non-null
while its status is `'pending'` — the claimed invariant does not survive this
exposed operation. -/
theorem c1_rejection_invariant_counterexample :
    RejInv dbC1 ∧
    (handleReviewDocument dbC1 5 adminUser (some 1) bodyC1 noReviewFaults).statusCode = 200 ∧
    ¬ RejInv (handleReviewDocument dbC1 5 adminUser (some 1) bodyC1 noReviewFaults).db := by
  decide

/-- C1 (amended): `rejection_reason != null ⇔ status == 'rejected'` is
preserved by record creation, by the expiry sweep (under any fault pattern),
and by every review call that supplies a `rejectionReason` only together with
`newStatus = 'rejected'`; the unrestricted claim fails only for review calls
pairing a non-rejected `newStatus` with a supplied `rejectionReason`, which
store a non-null reason under a non-rejected status. -/
theorem c1_rejection_invariant_amended (db : DB) (now : Nat) (user : User)
    (documentId : Option Nat) (body : ReviewBody) (f : ReviewFaults)
    (today : Nat) (sf : SweepFaults) (newId : Nat) (driverId documentType : String)
    (hdb : RejInv db)
    (hbody : body.status = some "rejected" ∨ body.rejectionReason = none) :
    RejInv (handleReviewDocument db now user documentId body f).db ∧
    RejInv (createDocumentRecord db now newId driverId documentType) ∧
    RejInv (expiryHandler db today now sf).db :=
  ⟨rejInv_handleReviewDocument hdb hbody,
   rejInv_createDocumentRecord now newId driverId documentType hdb,
   rejInv_expiryHandler today now sf hdb⟩

/-- C1 witness: the amended invariant theorem applied at a concrete store,
a concrete rejecting review call, a concrete insert and a concrete sweep. -/
theorem c1_rejection_invariant_witness :
    RejInv (handleReviewDocument dbC1 5 adminUser (some 1) bodyC1r noReviewFaults).db ∧
    RejInv (createDocumentRecord dbC1 5 9 "drv1" "insurance") ∧
    RejInv (expiryHandler dbC1 10 11 noSweepFaults).db :=
  c1_rejection_invariant_amended dbC1 5 adminUser (some 1) bodyC1r noReviewFaults
    10 noSweepFaults 9 "drv1" "insurance" (by decide) (Or.inl rfl)

/-! C2 — atomicity of the review transaction. -/

/-- C2: every review call is one atomic unit.  A non-200 outcome — failed
validation, missing document, or an injected failure at any step between
`BEGIN` and `COMMIT` — leaves the database exactly as it was; a 200 outcome
makes the whole unit visible: the document update plus, on transition to
`approved`, the profile-reference write and the aggregate recomputation,
which runs synchronously inside the unit and whose summary is part of the
response. -/
theorem c2_review_atomicity (db : DB) (now : Nat) (user : User)
    (documentId : Option Nat) (body : ReviewBody) (f : ReviewFaults) :
    ((handleReviewDocument db now user documentId body f).statusCode ≠ 200 →
      (handleReviewDocument db now user documentId body f).db = db) ∧
    ((handleReviewDocument db now user documentId body f).statusCode = 200 →
      ∃ docId status, documentId = some docId ∧ body.status = some status ∧
        reviewSuccessState db now user docId status body =
          some (handleReviewDocument db now user documentId body f).db ∧
        (status = "approved" →
          (handleReviewDocument db now user documentId body f).verificationStatus ≠
            none)) := by
  rcases handleReviewDocument_spec db now user documentId body f with
    ⟨hcode, hres⟩ |
    ⟨hcode, docId, status, document, db1, hdoc, hstat, hguard, hupd, hdocfield, hrest⟩
  · exact ⟨fun _ => hres, fun h => absurd h hcode⟩
  · refine ⟨fun h => absurd hcode h, fun _ => ⟨docId, status, hdoc, hstat, ?_, ?_⟩⟩
    · unfold reviewSuccessState
      rw [hupd]
      dsimp only
      rcases hrest with ⟨happr, hvs, hres⟩ | ⟨happr, hres⟩
      · rw [if_pos happr, hres]
      · rw [if_neg happr, hres]
    · intro happr
      rcases hrest with ⟨_, hvs, _⟩ | ⟨hne, _⟩
      · rw [hvs]; simp
      · exact absurd happr hne

/-- C2 witness: a concrete mid-transaction failure (injected at `COMMIT`)
rolls the store back to its entry state. -/
theorem c2_review_atomicity_witness :
    (handleReviewDocument dbC1 5 adminUser (some 1) bodyC1r
      { noReviewFaults with failCommit := true }).db = dbC1 :=
  (c2_review_atomicity dbC1 5 adminUser (some 1) bodyC1r
    { noReviewFaults with failCommit := true }).1 (by decide)

/-! C7 — rejected review without a reason. -/

/-- C7: a review call with `newStatus = 'rejected'` and no `rejectionReason`
fails with the 400 validation response and returns the database unchanged,
under every fault pattern — the check runs before any mutation. -/
theorem c7_rejected_without_reason (db : DB) (now : Nat) (user : User)
    (documentId : Option Nat) (docId : Nat) (body : ReviewBody) (f : ReviewFaults)
    (hadmin : user.isAdmin = true) (hdoc : documentId = some docId)
    (hstat : body.status = some "rejected") (hreason : body.rejectionReason = none) :
    handleReviewDocument db now user documentId body f =
      { statusCode := 400, db := db, document := none, verificationStatus := none } := by
  subst hdoc
  unfold handleReviewDocument
  dsimp only
  split
  next h => rw [hadmin] at h; exact absurd h (by decide)
  next =>
  split
  next h => rw [h] at hstat
  next status heq =>
  rw [hstat] at heq
  injection heq with h
  subst h
  split
  next h => exact absurd h (by decide)
  next =>
  split
  next => rfl
  next h => rw [hreason] at h; exact absurd (by decide) h

/-- C7 scenario: a rejecting review body with no reason. -/
def bodyC7 : ReviewBody := { emptyBody with status := some "rejected" }

/-- C7 witness: the theorem at a concrete store and call (with a fault
pattern that would corrupt the store were any mutation attempted). -/
theorem c7_rejected_without_reason_witness :
    handleReviewDocument dbC1 5 adminUser (some 1) bodyC7
      { noReviewFaults with failUpdateDoc := true } =
      { statusCode := 400, db := dbC1, document := none, verificationStatus := none } :=
  c7_rejected_without_reason dbC1 5 adminUser (some 1) 1 bodyC7
    { noReviewFaults with failUpdateDoc := true } (by decide) rfl rfl rfl

lemma checkAllDocumentsApproved_complete (db : DB) (driverId : String) (now : Nat)
    (h : (requiredDocs.all fun doc =>
      decide (doc ∈ approvedRequiredTypes db driverId)) = true) :
    checkAllDocumentsApproved db now driverId =
      ({ allDocumentsApproved := true, profileUpdated := true, missingDocuments := [] },
       { db with
           profiles := db.profiles.map fun p =>
             if p.user_id = driverId then markProfileComplete now p else p }) := by
  unfold checkAllDocumentsApproved
  dsimp only
  rw [h]
  simp

lemma checkAllDocumentsApproved_incomplete (db : DB) (driverId : String) (now : Nat)
    (h : (requiredDocs.all fun doc =>
      decide (doc ∈ approvedRequiredTypes db driverId)) = false) :
    checkAllDocumentsApproved db now driverId =
      ({ allDocumentsApproved := false, profileUpdated := false,
         missingDocuments := requiredDocs.filter fun doc =>
           !decide (doc ∈ approvedRequiredTypes db driverId) }, db) := by
  unfold checkAllDocumentsApproved
  dsimp only
  rw [h]
  simp

lemma sweeperCheckDriver_incomplete (db : DB) (driverId : String) (now : Nat)
    (h : (requiredDocs.all fun doc =>
      decide (doc ∈ approvedRequiredTypes db driverId)) = false) :
    sweeperCheckDriver db now driverId =
      (some ((db.profiles.filter fun p => decide (p.user_id = driverId)).map
          (demoteProfile now)).head?,
       { db with
           profiles := db.profiles.map fun p =>
             if p.user_id = driverId then demoteProfile now p else p }) := by
  unfold sweeperCheckDriver
  dsimp only
  rw [h]
  simp

/-! C3 — demotion on incompleteness found by the review-path recompute. -/

/-- A review body approving the addressed document. -/
def bodyApprove : ReviewBody := { emptyBody with status := some "approved" }

/-- C3 scenario: the driver's stored aggregate says complete/active, but only
the license document exists (pending). -/
def dbC3 : DB :=
  { documents := [doc0],
    profiles := [{ prof0 with documents_complete := true, status := "active" }] }

/-- C3: counterexample.  Approving the license triggers the recomputation,
which finds the required set incomplete while the stored aggregate says
complete — yet the stored profile keeps `documents_complete = true` and
status `'active'`: the review-path recomputation performs no demotion
write at all. -/
theorem c3_recompute_demotion_counterexample :
    (handleReviewDocument dbC3 7 adminUser (some 1) bodyApprove noReviewFaults).statusCode =
      200 ∧
    (handleReviewDocument dbC3 7 adminUser (some 1) bodyApprove
        noReviewFaults).verificationStatus =
      some { allDocumentsApproved := false, profileUpdated := false,
             missingDocuments := ["insurance", "registration", "profile_photo"] } ∧
    ((handleReviewDocument dbC3 7 adminUser (some 1) bodyApprove
        noReviewFaults).db.profiles.map fun p => (p.documents_complete, p.status)) =
      [(true, "active")] := by
  decide

/-- C3 (amended): when the required set is not fully approved, the
review-path recomputation (`checkAllDocumentsApproved`) only reports the
missing documents and performs no write whatsoever — even when the stored
aggregate says complete, no `documents_complete = false` write and no
`active → pending_documents` flip happens there; that demotion write is
performed only by the sweeper's per-driver recomputation. -/
theorem c3_recompute_demotion_amended (db : DB) (now : Nat) (driverId : String)
    (hna : (requiredDocs.all fun doc =>
      decide (doc ∈ approvedRequiredTypes db driverId)) = false) :
    checkAllDocumentsApproved db now driverId =
      ({ allDocumentsApproved := false, profileUpdated := false,
         missingDocuments := requiredDocs.filter fun doc =>
           !decide (doc ∈ approvedRequiredTypes db driverId) }, db) ∧
    (sweeperCheckDriver db now driverId).2 =
      { db with
          profiles := db.profiles.map fun p =>
            if p.user_id = driverId then demoteProfile now p else p } := by
  constructor
  · exact checkAllDocumentsApproved_incomplete db driverId now hna
  · rw [sweeperCheckDriver_incomplete db driverId now hna]

/-- C3 witness: the amended theorem at the counterexample store. -/
theorem c3_recompute_demotion_witness :
    checkAllDocumentsApproved dbC3 7 "drv1" =
      ({ allDocumentsApproved := false, profileUpdated := false,
         missingDocuments := requiredDocs.filter fun doc =>
           !decide (doc ∈ approvedRequiredTypes dbC3 "drv1") }, dbC3) :=
  (c3_recompute_demotion_amended dbC3 7 "drv1" (by decide)).1

/-! C4 — idempotence of the aggregate recomputation. -/

/-- C4 scenario: all four required documents approved, one profile row. -/
def dbC4 : DB :=
  { documents :=
      [{ doc0 with status := "approved" },
       { doc0 with id := 2, document_type := "insurance", status := "approved" },
       { doc0 with id := 3, document_type := "registration", status := "approved" },
       { doc0 with id := 4, document_type := "profile_photo", status := "approved" }],
    profiles := [prof0] }

/-- C4: counterexample.  With unchanged documents, running the recomputation
a second time performs another profile write: `documents_verified_at` is
re-stamped from the first run's clock to the second run's, so the stored
state differs and the second run is not write-free. -/
theorem c4_recompute_idempotence_counterexample :
    ((checkAllDocumentsApproved dbC4 1 "drv1").2.profiles.map
        fun p => p.documents_verified_at) = [some 1] ∧
    ((checkAllDocumentsApproved (checkAllDocumentsApproved dbC4 1 "drv1").2 2
        "drv1").2.profiles.map fun p => p.documents_verified_at) = [some 2] ∧
    (checkAllDocumentsApproved (checkAllDocumentsApproved dbC4 1 "drv1").2 2 "drv1").2 ≠
      (checkAllDocumentsApproved dbC4 1 "drv1").2 := by
  decide

/-- C4 (amended): the recomputation is idempotent up to timestamps.  A second
run with unchanged documents returns the identical output value; when the
driver is incomplete it performs no write at all; when the driver is
complete the second run writes again, re-stamping `documents_verified_at`
and `updated_at` — the resulting state is exactly that of a single run at
the second run's clock. -/
theorem c4_recompute_idempotence_amended (db : DB) (driverId : String)
    (now1 now2 : Nat) :
    (checkAllDocumentsApproved (checkAllDocumentsApproved db now1 driverId).2 now2
        driverId).1 = (checkAllDocumentsApproved db now1 driverId).1 ∧
    ((checkAllDocumentsApproved db now1 driverId).1.allDocumentsApproved = false →
      (checkAllDocumentsApproved (checkAllDocumentsApproved db now1 driverId).2 now2
          driverId).2 = (checkAllDocumentsApproved db now1 driverId).2) ∧
    ((checkAllDocumentsApproved db now1 driverId).1.allDocumentsApproved = true →
      (checkAllDocumentsApproved (checkAllDocumentsApproved db now1 driverId).2 now2
          driverId).2 = (checkAllDocumentsApproved db now2 driverId).2) := by
  have hAT : approvedRequiredTypes (checkAllDocumentsApproved db now1 driverId).2
      driverId = approvedRequiredTypes db driverId :=
    approvedRequiredTypes_eq_of_documents
      (checkAllDocumentsApproved_documents db now1 driverId) driverId
  by_cases hcond : (requiredDocs.all fun doc =>
      decide (doc ∈ approvedRequiredTypes db driverId)) = true
  · have hcond2 : (requiredDocs.all fun doc =>
        decide (doc ∈ approvedRequiredTypes
          (checkAllDocumentsApproved db now1 driverId).2 driverId)) = true := by
      rw [hAT]; exact hcond
    have h1 := checkAllDocumentsApproved_complete db driverId now1 hcond
    have h2 := checkAllDocumentsApproved_complete db driverId now2 hcond
    have h3 := checkAllDocumentsApproved_complete
      (checkAllDocumentsApproved db now1 driverId).2 driverId now2 hcond2
    refine ⟨?_, ?_, fun _ => ?_⟩
    · rw [h3, h1]
    · intro hfalse
      rw [h1] at hfalse
      exact absurd hfalse (by simp)
    · rw [h3, h2, h1]
      dsimp only
      rw [List.map_map]
      have hmaps : db.profiles.map
          ((fun p => if p.user_id = driverId then markProfileComplete now2 p else p) ∘
            fun p => if p.user_id = driverId then markProfileComplete now1 p else p) =
          db.profiles.map fun p =>
            if p.user_id = driverId then markProfileComplete now2 p else p :=
        List.map_congr_left fun p hmem => by
          dsimp only [Function.comp]
          by_cases hp : p.user_id = driverId
          · simp only [if_pos hp]
            have hp2 : (markProfileComplete now1 p).user_id = driverId := hp
            rw [if_pos hp2, markProfileComplete_comp]
          · simp only [if_neg hp]
      rw [hmaps]
  · have hcondF : (requiredDocs.all fun doc =>
        decide (doc ∈ approvedRequiredTypes db driverId)) = false := by
      simpa using hcond
    have h1 := checkAllDocumentsApproved_incomplete db driverId now1 hcondF
    have h3 := checkAllDocumentsApproved_incomplete db driverId now2 hcondF
    refine ⟨?_, fun _ => ?_, fun htrue => ?_⟩
    · rw [h1]
      dsimp only
      rw [h3]
    · rw [h1]
      dsimp only
      rw [h3]
    · rw [h1] at htrue
      exact absurd htrue (by simp)

/-- C4 witness: at the concrete complete driver, the second run equals a
single run at the later clock (and hence differs from the first run only in
its timestamps). -/
theorem c4_recompute_idempotence_witness :
    (checkAllDocumentsApproved (checkAllDocumentsApproved dbC4 1 "drv1").2 2
        "drv1").2 = (checkAllDocumentsApproved dbC4 2 "drv1").2 :=
  (c4_recompute_idempotence_amended dbC4 "drv1" 1 2).2.2 (by decide)

/-! C5 — forward-only status transitions. -/

/-- C5 scenario: a single expired document. -/
def dbC5 : DB := { documents := [{ doc0 with status := "expired" }], profiles := [] }

/-- C5 scenario: a single approved document. -/
def dbC5b : DB := { documents := [{ doc0 with status := "approved" }], profiles := [] }

/-- C5 scenario: a review body demoting to `pending`. -/
def bodyPending : ReviewBody := { emptyBody with status := some "pending" }

/-- C5: counterexample.  The review operation moves an `expired` document
back to `pending` and an `approved` document back to `pending`, both with a
200 response: `updateDocumentStatus` has no guard on the current status. -/
theorem c5_forward_only_counterexample :
    (handleReviewDocument dbC5 5 adminUser (some 1) bodyPending
        noReviewFaults).statusCode = 200 ∧
    ((handleReviewDocument dbC5 5 adminUser (some 1) bodyPending
        noReviewFaults).db.documents.map fun d => d.status) = ["pending"] ∧
    (handleReviewDocument dbC5b 5 adminUser (some 1) bodyPending
        noReviewFaults).statusCode = 200 ∧
    ((handleReviewDocument dbC5b 5 adminUser (some 1) bodyPending
        noReviewFaults).db.documents.map fun d => d.status) = ["pending"] := by
  decide

/-- C5 (amended): the sweep passes are forward-only — a document stored as
`expired` keeps status `expired` through any sweep run, and a sweep run
never makes an `approved` document `pending` (it can only leave it
`approved` or demote it to `expired`); the review operation, however,
applies the requested status unconditionally to the addressed document,
so it can move a document out of `expired` and from `approved` back to
`pending`. -/
theorem c5_forward_only_amended (db : DB) (today now : Nat) (f : SweepFaults)
    (i : Nat) (d : Document) (hd : db.documents[i]? = some d) :
    (d.status = "expired" →
      ((expiryHandler db today now f).db.documents[i]?).map (fun x => x.status) =
        some "expired") ∧
    (d.status = "approved" →
      ((expiryHandler db today now f).db.documents[i]?).map (fun x => x.status) =
        some "approved" ∨
      ((expiryHandler db today now f).db.documents[i]?).map (fun x => x.status) =
        some "expired") ∧
    (∀ (db2 : DB) (now2 : Nat) (user : User) (documentId : Option Nat)
        (body : ReviewBody) (f2 : ReviewFaults) (d3 : Document),
      (handleReviewDocument db2 now2 user documentId body f2).statusCode = 200 →
      (handleReviewDocument db2 now2 user documentId body f2).document = some d3 →
      body.status = some d3.status) := by
  have hmid : ∀ dbMid : DB,
      dbMid.documents = (markExpiredDocuments db today now).2.documents →
      (dbMid.documents[i]?).map (fun x => x.status) =
        some (if isExpiredCandidate today d then (expireDoc now d).status
          else d.status) := by
    intro dbMid hdocs
    rw [hdocs, markExpiredDocuments_getElem, hd]
    dsimp only [Option.map]
    split <;> rfl
  have hstatus : ∀ g : DB,
      g = (expiryHandler db today now f).db →
      ((expiryHandler db today now f).db.documents[i]?).map (fun x => x.status) =
        (db.documents[i]?).map (fun x => x.status) ∨
      ((expiryHandler db today now f).db.documents[i]?).map (fun x => x.status) =
        some (if isExpiredCandidate today d then (expireDoc now d).status
          else d.status) := by
    intro g _
    rcases expiryHandler_db_spec db today now f with ⟨_, hres⟩ |
      ⟨_, dbMid, hdocs, hres | hres⟩
    · rw [hres]; exact Or.inl rfl
    · rw [hres]; exact Or.inr (hmid dbMid hdocs)
    · rw [hres, markNotificationSent_status]
      exact Or.inr (hmid dbMid hdocs)
  refine ⟨?_, ?_, ?_⟩
  · intro hexp
    rcases hstatus _ rfl with hcase | hcase
    · rw [hcase, hd]
      dsimp only [Option.map]
      rw [hexp]
    · rw [hcase]
      have hc : isExpiredCandidate today d = false := by
        unfold isExpiredCandidate
        rw [hexp]
        simp
      rw [hc]
      simp [hexp]
  · intro happr
    rcases hstatus _ rfl with hcase | hcase
    · rw [hcase, hd]
      dsimp only [Option.map]
      rw [happr]
      exact Or.inl rfl
    · rw [hcase]
      by_cases hc : isExpiredCandidate today d = true
      · rw [hc]
        exact Or.inr (by simp [expireDoc])
      · simp only [Bool.not_eq_true] at hc
        rw [hc]
        simp [happr]
  · intro db2 now2 user documentId body f2 d3 hcode hdocf
    rcases handleReviewDocument_spec db2 now2 user documentId body f2 with
      ⟨hne, _⟩ | ⟨_, docId, status, document, db1, _, hstat, _, hupd, hdocf2, _⟩
    · exact absurd hcode hne
    · rw [hdocf] at hdocf2
      rw [Option.some.injEq] at hdocf2
      subst hdocf2
      rw [hstat, (updateDocumentStatus_ok_doc hupd).1]
      exact rfl

/-- C5 scenario: the stored document of the expired-review counterexample
after the call (status overwritten to the requested `pending`). -/
def docC5r : Document :=
  { doc0 with status := "pending", verified_by := some "admin1", updated_at := 5 }

/-- C5 witness: the amended theorem at a concrete store — the sweep keeps an
expired document expired, and a concrete review call returns a document
carrying exactly the requested status. -/
theorem c5_forward_only_witness :
    ((expiryHandler dbC5 10 11 noSweepFaults).db.documents[0]?).map
        (fun x => x.status) = some "expired" ∧
    bodyPending.status = some docC5r.status :=
  ⟨(c5_forward_only_amended dbC5 10 11 noSweepFaults 0 { doc0 with status := "expired" }
      rfl).1 rfl,
   (c5_forward_only_amended dbC5 10 11 noSweepFaults 0 { doc0 with status := "expired" }
      rfl).2.2 dbC5 5 adminUser (some 1) bodyPending noReviewFaults docC5r
      (by decide) (by decide)⟩

/-! C6 — reviewer-identity and timestamp frame effects. -/

/-- C6 scenario: an approved document with an earlier reviewer recorded. -/
def docC6 : Document :=
  { doc0 with status := "approved", verified_by := some "olda", verified_at := some 3 }

/-- C6 scenario: the store holding just that document. -/
def dbC6 : DB := { documents := [docC6], profiles := [] }

/-- C6: counterexample.  A review call with `newStatus = 'pending'` leaves
`verified_at` alone but overwrites `verified_by` with the caller — the
reviewer-identity field is not left unchanged on `pending`/`processing`. -/
theorem c6_review_fields_counterexample :
    (handleReviewDocument dbC6 9 adminUser (some 1) bodyPending
        noReviewFaults).statusCode = 200 ∧
    ((handleReviewDocument dbC6 9 adminUser (some 1) bodyPending
        noReviewFaults).db.documents.map fun d => d.verified_by) = [some "admin1"] ∧
    (dbC6.documents.map fun d => d.verified_by) = [some "olda"] ∧
    ((handleReviewDocument dbC6 9 adminUser (some 1) bodyPending
        noReviewFaults).db.documents.map fun d => d.verified_at) = [some 3] := by
  decide

/-- C6 (amended): in the stored update applied by a review call,
`verified_at` is stamped exactly when the new status is approved or rejected
and kept otherwise, the optional document number / issuing authority /
issue date / expiry date keep their stored value when not supplied, and
`updated_at` is always bumped — but `verified_by` is overwritten with the
caller's id on every review, including `pending` and `processing`. -/
theorem c6_review_fields_amended (now : Nat) (rd : ReviewData) (d : Document)
    (db : DB) (docId : Nat) (doc : Document) (db1 : DB) :
    ((rd.status = "approved" ∨ rd.status = "rejected") →
      (applyReviewUpdate now rd d).verified_at = some now) ∧
    ((rd.status = "pending" ∨ rd.status = "processing") →
      (applyReviewUpdate now rd d).verified_at = d.verified_at) ∧
    (applyReviewUpdate now rd d).verified_by = some rd.reviewerId ∧
    (rd.documentNumber = none →
      (applyReviewUpdate now rd d).document_number = d.document_number) ∧
    (rd.issuingAuthority = none →
      (applyReviewUpdate now rd d).issuing_authority = d.issuing_authority) ∧
    (rd.issueDate = none → (applyReviewUpdate now rd d).issue_date = d.issue_date) ∧
    (rd.expiryDate = none → (applyReviewUpdate now rd d).expiry_date = d.expiry_date) ∧
    (applyReviewUpdate now rd d).updated_at = now ∧
    (updateDocumentStatus db now docId rd = .ok (doc, db1) →
      db1.documents = db.documents.map fun x =>
        if x.id = docId then applyReviewUpdate now rd x else x) := by
  refine ⟨?_, ?_, rfl, ?_, ?_, ?_, ?_, rfl, fun h => (updateDocumentStatus_ok h).1⟩
  · intro h
    dsimp only [applyReviewUpdate]
    rw [if_pos h]
  · intro h
    dsimp only [applyReviewUpdate]
    rcases h with h | h <;> rw [h] <;> rw [if_neg (by decide)]
  · intro h
    dsimp only [applyReviewUpdate, coalesce]
    rw [h]
  · intro h
    dsimp only [applyReviewUpdate, coalesce]
    rw [h]
  · intro h
    dsimp only [applyReviewUpdate, coalesce]
    rw [h]
  · intro h
    dsimp only [applyReviewUpdate, coalesce]
    rw [h]

/-- C6 scenario: the concrete `reviewData` of the counterexample call. -/
def rdC6 : ReviewData := mkReviewData adminUser bodyPending "pending"

/-- C6 witness: the amended theorem at the concrete pending review — the
timestamp is kept, the reviewer id is overwritten, the clock is bumped. -/
theorem c6_review_fields_witness :
    (applyReviewUpdate 9 rdC6 docC6).verified_at = docC6.verified_at ∧
    (applyReviewUpdate 9 rdC6 docC6).verified_by = some rdC6.reviewerId ∧
    (applyReviewUpdate 9 rdC6 docC6).updated_at = 9 := by
  have h := c6_review_fields_amended 9 rdC6 docC6 dbC6 1 doc0 dbC6
  exact ⟨h.2.1 (Or.inl rfl), h.2.2.1, h.2.2.2.2.2.2.2.1⟩

/-! C8 — the demotion pass: exactness, per-driver dedup, idempotence. -/

/-- C8 scenario: one approved driver-A document expired yesterday. -/
def docC8 : Document :=
  { doc0 with driver_id := "A", status := "approved", expiry_date := some 5 }

/-- C8 scenario: the store holding just that document. -/
def dbC8 : DB := { documents := [docC8], profiles := [] }

/-- C8: the demotion pass transitions exactly the rows with status
`approved` and a non-null expiry date strictly before today (every other row
is returned untouched); the per-driver recomputation loop iterates the
deduplicated driver list — no-duplicate, same members as the affected
drivers — so each distinct affected driver is recomputed at most once; and
an immediately repeated run selects zero rows and changes nothing. -/
theorem c8_demotion_pass (db : DB) (today now now2 : Nat) (l : List String) :
    (∀ (i : Nat) (d : Document), db.documents[i]? = some d →
      (markExpiredDocuments db today now).2.documents[i]? =
        some (if isExpiredCandidate today d then expireDoc now d else d)) ∧
    (∀ d : Document, isExpiredCandidate today d = true ↔
      (d.status = "approved" ∧ ∃ e, d.expiry_date = some e ∧ e < today)) ∧
    (dedupFirst l).Nodup ∧
    (∀ a, a ∈ dedupFirst l ↔ a ∈ l) ∧
    markExpiredDocuments (markExpiredDocuments db today now).2 today now2 =
      ([], (markExpiredDocuments db today now).2) := by
  refine ⟨?_, ?_, ?_, ?_, ?_⟩
  · intro i d hd
    rw [markExpiredDocuments_getElem, hd]
    rfl
  · intro d
    unfold isExpiredCandidate
    cases hexp : d.expiry_date with
    | none => simp [hexp]
    | some e => simp [hexp]
  · exact dedupFirst_go_nodup l [] List.nodup_nil
  · intro a
    rw [dedupFirst, dedupFirst_go_mem l [] a]
    simp
  · have hnone := markExpiredDocuments_no_candidates db today now
    have hfilter : (markExpiredDocuments db today now).2.documents.filter
        (isExpiredCandidate today) = [] :=
      List.filter_eq_nil_iff.mpr (fun a ha => by rw [hnone a ha]; exact Bool.false_ne_true)
    have hmap : ((markExpiredDocuments db today now).2.documents.map fun d =>
        if isExpiredCandidate today d then expireDoc now2 d else d) =
        (markExpiredDocuments db today now).2.documents :=
      map_if_id _ _ _ hnone
    have hres : markExpiredDocuments (markExpiredDocuments db today now).2 today now2 =
        (((markExpiredDocuments db today now).2.documents.filter
            (isExpiredCandidate today)).map (expireDoc now2),
         { (markExpiredDocuments db today now).2 with
             documents := (markExpiredDocuments db today now).2.documents.map fun d =>
               if isExpiredCandidate today d then expireDoc now2 d else d }) := rfl
    rw [hres, hfilter, hmap]
    rfl

/-- C8 witness: the theorem at a concrete store — the expired-yesterday
document is transitioned, and the immediate second run is a no-op. -/
theorem c8_demotion_pass_witness :
    (markExpiredDocuments dbC8 10 11).2.documents[0]? =
      some (if isExpiredCandidate 10 docC8 then expireDoc 11 docC8 else docC8) ∧
    markExpiredDocuments (markExpiredDocuments dbC8 10 11).2 10 12 =
      ([], (markExpiredDocuments dbC8 10 11).2) :=
  ⟨(c8_demotion_pass dbC8 10 11 12 ["A"]).1 0 docC8 rfl,
   (c8_demotion_pass dbC8 10 11 12 ["A"]).2.2.2.2⟩

/-! C9 — sweep failure semantics. -/

/-- C9 scenario: a second expired document owned by driver B. -/
def docC9b : Document :=
  { doc0 with id := 2, driver_id := "B", status := "approved", expiry_date := some 5 }

/-- C9 scenario: complete/active profiles for drivers A and B. -/
def profC9a : Profile :=
  { prof0 with user_id := "A", documents_complete := true, status := "active" }

/-- C9 scenario: driver B's profile. -/
def profC9b : Profile :=
  { prof0 with user_id := "B", documents_complete := true, status := "active" }

/-- C9 scenario: two drivers, both with a document expiring yesterday. -/
def dbC9 : DB := { documents := [docC8, docC9b], profiles := [profC9a, profC9b] }

/-- C9 scenario: driver A's per-driver queries fail. -/
def fC9 : SweepFaults := { noSweepFaults with failDrivers := ["A"] }

/-- C9: counterexample.  A failure on driver A's profile update is not
caught-and-skipped: the run returns 500 with a single error, driver B's
profile — which the fault-free run demotes — is left untouched, so the
remaining work of the batch is abandoned rather than processed.  (The
already-committed document transitions do survive.) -/
theorem c9_sweep_failure_counterexample :
    (expiryHandler dbC9 10 11 fC9).statusCode = 500 ∧
    (expiryHandler dbC9 10 11 fC9).errors = [sweepErrorMessage] ∧
    ((expiryHandler dbC9 10 11 fC9).db.documents.map fun d => d.status) =
      ["expired", "expired"] ∧
    (expiryHandler dbC9 10 11 fC9).db.profiles = [profC9a, profC9b] ∧
    ((expiryHandler dbC9 10 11 noSweepFaults).db.profiles.map
        fun p => (p.documents_complete, p.status)) =
      [(false, "pending_documents"), (false, "pending_documents")] := by
  decide

/-- C9 (amended): the sweep has a single outer catch and no per-document
unit of work: any failure aborts the remaining steps and yields a 500
response carrying exactly one recorded error (a fault-free run yields 200
with an empty error list); and because no step runs in a transaction,
every document transition committed by the demotion `UPDATE` before the
failure is preserved in the final state, never rolled back. -/
theorem c9_sweep_failure_amended (db : DB) (today now : Nat) (f : SweepFaults) :
    ((expiryHandler db today now f).statusCode = 200 ∧
       (expiryHandler db today now f).errors = [] ∨
     (expiryHandler db today now f).statusCode = 500 ∧
       (expiryHandler db today now f).errors = [sweepErrorMessage]) ∧
    (f.failMarkExpired = false →
      ∀ (i : Nat) (d : Document), db.documents[i]? = some d →
        isExpiredCandidate today d = true →
        ((expiryHandler db today now f).db.documents[i]?).map (fun x => x.status) =
          some "expired") := by
  constructor
  · unfold expiryHandler
    dsimp only
    split
    · exact Or.inr ⟨rfl, rfl⟩
    · split
      · exact Or.inr ⟨rfl, rfl⟩
      · split
        · exact Or.inr ⟨rfl, rfl⟩
        · split
          · split
            · exact Or.inr ⟨rfl, rfl⟩
            · exact Or.inl ⟨rfl, rfl⟩
          · exact Or.inl ⟨rfl, rfl⟩
  · intro hfme i d hd hc
    have hmid : ∀ dbMid : DB,
        dbMid.documents = (markExpiredDocuments db today now).2.documents →
        (dbMid.documents[i]?).map (fun x => x.status) = some "expired" := by
      intro dbMid hdocs
      rw [hdocs, markExpiredDocuments_getElem, hd]
      dsimp only [Option.map]
      rw [hc]
      simp [expireDoc]
    rcases expiryHandler_db_spec db today now f with ⟨hfmeT, _⟩ |
      ⟨_, dbMid, hdocs, hres | hres⟩
    · rw [hfme] at hfmeT
      exact absurd hfmeT (by decide)
    · rw [hres]
      exact hmid dbMid hdocs
    · rw [hres, markNotificationSent_status]
      exact hmid dbMid hdocs

/-- C9 witness: driver B's expired-yesterday document stays `expired` in the
final state even though driver A's failure aborted the run. -/
theorem c9_sweep_failure_witness :
    ((expiryHandler dbC9 10 11 fC9).db.documents[1]?).map (fun x => x.status) =
      some "expired" :=
  (c9_sweep_failure_amended dbC9 10 11 fC9).2 rfl 1 docC9b rfl (by decide)

/-! C10 — overwrite semantics of notes and rejection_reason. -/

/-- C10: review calls overwrite `notes` and `rejection_reason` with the
supplied value or NULL when omitted, in contrast to the keep-if-absent
`COALESCE` merge used for the four verification-metadata fields; at the
storage level, after any 200 review the addressed document's stored `notes`
and `rejection_reason` equal exactly the body's values. -/
theorem c10_overwrite_vs_merge (now : Nat) (rd : ReviewData) (d : Document)
    (db : DB) (nowh : Nat) (user : User) (documentId : Option Nat)
    (body : ReviewBody) (f : ReviewFaults) :
    ((applyReviewUpdate now rd d).notes = rd.notes ∧
     (applyReviewUpdate now rd d).rejection_reason = rd.rejectionReason ∧
     (rd.documentNumber = none →
       (applyReviewUpdate now rd d).document_number = d.document_number) ∧
     (rd.issuingAuthority = none →
       (applyReviewUpdate now rd d).issuing_authority = d.issuing_authority)) ∧
    ((handleReviewDocument db nowh user documentId body f).statusCode = 200 →
      ∀ docId : Nat, documentId = some docId →
        ∀ d2 ∈ (handleReviewDocument db nowh user documentId body f).db.documents,
          d2.id = docId →
            d2.notes = body.notes ∧ d2.rejection_reason = body.rejectionReason) := by
  constructor
  · refine ⟨rfl, rfl, ?_, ?_⟩ <;> intro h <;> dsimp only [applyReviewUpdate, coalesce]
      <;> rw [h]
  · intro hcode docId hdoc d2 hd2 hid
    rcases handleReviewDocument_spec db nowh user documentId body f with
      ⟨hne, _⟩ | ⟨_, docId0, status, document, db1, hdoc0, hstat, _, hupd, _, hrest⟩
    · exact absurd hcode hne
    · have hdocs1 := (updateDocumentStatus_ok hupd).1
      have hdocs : (handleReviewDocument db nowh user documentId body f).db.documents =
          db1.documents := by
        rcases hrest with ⟨_, _, hres⟩ | ⟨_, hres⟩
        · rw [hres, checkAllDocumentsApproved_documents, updateDriverProfile_documents]
        · rw [hres]
      rw [hdoc0] at hdoc
      rw [Option.some.injEq] at hdoc
      rw [hdocs, hdocs1] at hd2
      simp only [List.mem_map] at hd2
      obtain ⟨a, ha, rfl⟩ := hd2
      rw [← hdoc] at hid
      by_cases hcase : a.id = docId0
      · rw [if_pos hcase]
        exact ⟨rfl, rfl⟩
      · rw [if_neg hcase] at hid
        exact absurd hid hcase

/-- C10 scenario: a stored document carrying notes, a reason and a document
number. -/
def docC10 : Document :=
  { doc0 with
      status := "rejected"
      notes := some "old note"
      rejection_reason := some "old reason"
      document_number := some "DL-1" }

/-- C10 scenario: the store holding just that document. -/
def dbC10 : DB := { documents := [docC10], profiles := [] }

/-- C10 scenario: a review body that supplies neither notes nor reason nor
any metadata field. -/
def bodyC10 : ReviewBody := { emptyBody with status := some "processing" }

/-- C10 scenario: the stored document after the review call — notes and
reason cleared to NULL, document number kept. -/
def docC10r : Document :=
  { doc0 with
      status := "processing"
      verified_by := some "admin1"
      document_number := some "DL-1"
      updated_at := 6 }

/-- C10 witness: the storage-level conclusion at a concrete call — a review
that omits notes and rejectionReason leaves both NULL afterwards. -/
theorem c10_overwrite_vs_merge_witness :
    docC10r.notes = bodyC10.notes ∧
    docC10r.rejection_reason = bodyC10.rejectionReason :=
  (c10_overwrite_vs_merge 6 rdC6 doc0 dbC10 6 adminUser (some 1) bodyC10
    noReviewFaults).2 (by decide) 1 rfl docC10r (by decide) (by decide)

end VeHealth

